import Mathlib

/-!
Shallow embedding of the validation / conversion core of the
`pipedrive-mcp` repository (an MCP server exposing Pipedrive CRM
operations), together with proofs settling the frozen claims about it.

The embedding follows the Python sources:
  * `pipedrive/api/features/shared/conversion/id_conversion.py`
  * `pipedrive/api/features/activities/models/activity.py`
  * `pipedrive/api/features/deals/models/deal.py`
  * `pipedrive/api/features/deals/models/deal_product.py`
  * `pipedrive/api/features/persons/models/person.py` (+ `contact_info.py`)
  * `pipedrive/api/features/tool_decorator.py`
  * `pipedrive/api/features/activities/tools/activity_create_tool.py`
  * `pipedrive/api/features/shared/utils.py`

Python built-ins used by that code (`str.strip`, `str.lower`, `int(...)`,
`uuid.UUID`, the `re` patterns) are modelled explicitly below, restricted
to ASCII where the code only ever meets ASCII data.
-/

/-! ## Python string primitives -/

/-- The whitespace characters recognised by Python's `str.strip()` /
`int()` (ASCII fragment: space, tab, newline, carriage return, vertical
tab, form feed). -/
def isPySpace (c : Char) : Bool :=
  c = ' ' || c = '\t' || c = '\n' || c = '\r' || c = '\x0b' || c = '\x0c'

/-- `str.strip()` on a list of characters: drop leading and trailing
whitespace. -/
def pyStripL (l : List Char) : List Char :=
  ((l.dropWhile isPySpace).reverse.dropWhile isPySpace).reverse

/-- `str.strip()` on a `String`. -/
def pyStrip (s : String) : String :=
  ⟨pyStripL s.data⟩

/-- ASCII decimal digit. -/
def isAsciiDigit (c : Char) : Bool :=
  '0' ≤ c && c ≤ '9'

/-- Numeric value of an ASCII digit. -/
def digitVal (c : Char) : Nat :=
  c.toNat - '0'.toNat

/-- Parse an unsigned run of ASCII digits in which single underscores may
appear between digits (Python 3 integer-literal grammar as accepted by
`int(str)`): the run must start with a digit, an underscore must be
followed by a digit, and the run must end with a digit.  `acc` is the
value of the digits consumed so far. -/
def pyDigitsAux : Nat → List Char → Option Nat
  | acc, [] => some acc
  | acc, '_' :: c :: l =>
      if isAsciiDigit c then pyDigitsAux (acc * 10 + digitVal c) l else none
  | _, ['_'] => none
  | acc, c :: l =>
      if isAsciiDigit c then pyDigitsAux (acc * 10 + digitVal c) l else none

/-- Parse a non-empty unsigned digit run (with embedded underscores). -/
def pyDigits : List Char → Option Nat
  | [] => none
  | c :: l => if isAsciiDigit c then pyDigitsAux (digitVal c) l else none

/-- Model of Python `int(s)` for `str` arguments (ASCII fragment):
surrounding whitespace is stripped, an optional sign is consumed, and the
rest must be a digit run with optional single embedded underscores. -/
def pyIntParse (s : String) : Option Int :=
  match pyStripL s.data with
  | '+' :: l => (pyDigits l).map fun n => (n : Int)
  | '-' :: l => (pyDigits l).map fun n => -(n : Int)
  | l => (pyDigits l).map fun n => (n : Int)

/-- Model of Python `str.lower()` restricted to ASCII letters (the only
case-carrying characters the conversion helpers can meet on the paths
under study: hexadecimal digits, dashes, digits, whitespace). -/
def pyToLower : Char → Char
  | 'A' => 'a' | 'B' => 'b' | 'C' => 'c' | 'D' => 'd' | 'E' => 'e'
  | 'F' => 'f' | 'G' => 'g' | 'H' => 'h' | 'I' => 'i' | 'J' => 'j'
  | 'K' => 'k' | 'L' => 'l' | 'M' => 'm' | 'N' => 'n' | 'O' => 'o'
  | 'P' => 'p' | 'Q' => 'q' | 'R' => 'r' | 'S' => 's' | 'T' => 't'
  | 'U' => 'u' | 'V' => 'v' | 'W' => 'w' | 'X' => 'x' | 'Y' => 'y'
  | 'Z' => 'z'
  | c => c

/-- `str.lower()` on a list of characters. -/
def pyLowerL (l : List Char) : List Char :=
  l.map pyToLower

/-! ## `id_conversion.convert_id_string` -/

/-- `convert_id_string(id_str, field_name, example)` from
`shared/conversion/id_conversion.py`: `None` or blank input gives
`(None, None)`; otherwise `int(id_str)` is attempted, a non-positive
value or a parse failure each giving `(None, message)`.  The Python
`example` parameter (default `"123"`) is the third argument `ex`
(`example` is a reserved word in Lean). -/
def convert_id_string (id_str : Option String) (field_name : String)
    (ex : String) : Option Int × Option String :=
  match id_str with
  | none => (none, none)
  | some s =>
    if pyStripL s.data = [] then (none, none)
    else
      match pyIntParse s with
      | some v =>
          if v ≤ 0 then
            (none, some (field_name ++ " must be a positive integer. Example: '"
              ++ ex ++ "'"))
          else (some v, none)
      | none =>
          (none, some (field_name ++ " must be a numeric string. Example: '"
            ++ ex ++ "'"))

/-! ## `id_conversion.validate_uuid_string` -/

def isLowerHex (c : Char) : Bool :=
  ('0' ≤ c && c ≤ '9') || ('a' ≤ c && c ≤ 'f')

def hexRun : Nat → List Char → Option (List Char)
  | 0, l => some l
  | _ + 1, [] => none
  | n + 1, c :: l => if isLowerHex c then hexRun n l else none

def expectDash : List Char → Option (List Char)
  | '-' :: r => some r
  | _ => none

def expectNil : List Char → Option Unit
  | [] => some ()
  | _ => none

def uuidShape (l : List Char) : Bool :=
  (do
    let r1 ← hexRun 8 l
    let r1 ← expectDash r1
    let r2 ← hexRun 4 r1
    let r2 ← expectDash r2
    let r3 ← hexRun 4 r2
    let r3 ← expectDash r3
    let r4 ← hexRun 4 r3
    let r4 ← expectDash r4
    let r5 ← hexRun 12 r4
    expectNil r5).isSome

def isHexDigitCI (c : Char) : Bool :=
  isLowerHex (pyToLower c)

def formatUuid (h : List Char) : List Char :=
  h.take 8 ++ '-' :: (h.drop 8).take 4 ++ '-' :: ((h.drop 8).drop 4).take 4
    ++ '-' :: (((h.drop 8).drop 4).drop 4).take 4
    ++ '-' :: (((h.drop 8).drop 4).drop 4).drop 4

def pyUUIDParseL (l : List Char) : Option (List Char) :=
  let hex := l.filter (fun c => c != '-')
  if hex.length = 32 && hex.all isHexDigitCI then
    some (formatUuid (pyLowerL hex))
  else none

def pyUUIDParse (s : String) : Option String :=
  (pyUUIDParseL s.data).map fun h => ⟨h⟩

def validate_uuid_string (uuid_str : Option String) (field_name ex : String) :
    Option String × Option String :=
  match uuid_str with
  | none => (none, none)
  | some s =>
    if pyStripL s.data = [] then (none, none)
    else if uuidShape (pyLowerL s.data) then
      match pyUUIDParse s with
      | some u => (some u, none)
      | none => (none, some (field_name ++ " must be a valid UUID string. Example: '"
          ++ ex ++ "'"))
    else (none, some (field_name ++ " must be a valid UUID string. Example: '"
        ++ ex ++ "'"))

/-! ## The `Activity` entity model (`activities/models/activity.py`) -/

/-- Gregorian leap year (Python `datetime.date` calendar). -/
def isLeapYear (y : Nat) : Bool :=
  (y % 4 = 0 && y % 100 ≠ 0) || y % 400 = 0

/-- Days in a month of the proleptic Gregorian calendar. -/
def daysInMonth (y m : Nat) : Nat :=
  if m = 2 then (if isLeapYear y then 29 else 28)
  else if m = 4 || m = 6 || m = 9 || m = 11 then 30
  else 31

/-- Value of a fixed-width ASCII digit string. -/
def digitsVal (l : List Char) : Nat :=
  l.foldl (fun acc c => acc * 10 + digitVal c) 0

/-- Model of `datetime.date.fromisoformat` on the strict `YYYY-MM-DD`
form (the form this code base feeds it): ten characters, digits in the
date positions, dashes between, and a valid calendar date with year at
least 1. -/
def pyDateFromIso (l : List Char) : Option (Nat × Nat × Nat) :=
  match l with
  | [y1, y2, y3, y4, '-', m1, m2, '-', d1, d2] =>
    if [y1, y2, y3, y4, m1, m2, d1, d2].all isAsciiDigit then
      let y := digitsVal [y1, y2, y3, y4]
      let m := digitsVal [m1, m2]
      let d := digitsVal [d1, d2]
      if 1 ≤ y ∧ 1 ≤ m ∧ m ≤ 12 ∧ 1 ≤ d ∧ d ≤ daysInMonth y m then
        some (y, m, d)
      else none
    else none
  | _ => none

/-- The regex `^([01]\d|2[0-3]):([0-5]\d):([0-5]\d)$` from
`Activity.validate_time_format`. -/
def matchTimeFull : List Char → Bool
  | [h1, h2, ':', m1, m2, ':', s1, s2] =>
    ((h1 = '0' || h1 = '1') && isAsciiDigit h2
      || (h1 = '2' && ('0' ≤ h2 && h2 ≤ '3')))
    && ('0' ≤ m1 && m1 ≤ '5') && isAsciiDigit m2
    && ('0' ≤ s1 && s1 ≤ '5') && isAsciiDigit s2
  | _ => false

/-- The regex `^(\d):([0-5]\d)(?::([0-5]\d))?$` from
`Activity.validate_time_format` (single-digit hour, optional seconds). -/
def matchSingleDigitHour : List Char → Bool
  | [h, ':', m1, m2] =>
    isAsciiDigit h && ('0' ≤ m1 && m1 ≤ '5') && isAsciiDigit m2
  | [h, ':', m1, m2, ':', s1, s2] =>
    isAsciiDigit h && ('0' ≤ m1 && m1 ≤ '5') && isAsciiDigit m2
    && ('0' ≤ s1 && s1 ≤ '5') && isAsciiDigit s2
  | _ => false

/-- The regex `^([01]\d|2[0-3]):([0-5]\d)$` from
`Activity.validate_time_format` (`HH:MM`). -/
def matchHHMM : List Char → Bool
  | [h1, h2, ':', m1, m2] =>
    ((h1 = '0' || h1 = '1') && isAsciiDigit h2
      || (h1 = '2' && ('0' ≤ h2 && h2 ≤ '3')))
    && ('0' ≤ m1 && m1 ≤ '5') && isAsciiDigit m2
  | _ => false

/-- The `Activity` Pydantic model's fields, in declaration order. -/
structure Activity where
  subject : String
  type : String
  due_date : Option String
  due_time : Option String
  duration : Option String
  owner_id : Option Int
  deal_id : Option Int
  lead_id : Option String
  person_id : Option Int
  org_id : Option Int
  project_id : Option Int
  busy : Option Bool
  done : Option Bool
  note : Option String
  location : Option String
  public_description : Option String
  priority : Option Int
  id : Option Int
deriving DecidableEq

/-- `Activity.validate_subject`: reject empty/blank, return the stripped
subject. -/
def Activity.validate_subject (v : String) : Except String String :=
  if pyStripL v.data = [] then .error "Activity subject cannot be empty"
  else .ok (pyStrip v)

/-- `Activity.validate_type`: reject empty/blank, return the stripped
type. -/
def Activity.validate_type (v : String) : Except String String :=
  if pyStripL v.data = [] then .error "Activity type cannot be empty"
  else .ok (pyStrip v)

/-- `Activity.validate_due_date`: blank becomes `None`; otherwise the
stripped value must parse with `date.fromisoformat`. -/
def Activity.validate_due_date (v : Option String) :
    Except String (Option String) :=
  match v with
  | none => .ok none
  | some s =>
    if pyStripL s.data = [] then .ok none
    else
      match pyDateFromIso (pyStripL s.data) with
      | some _ => .ok (some (pyStrip s))
      | none => .error ("Invalid due_date format: " ++ pyStrip s
          ++ ". Must be in ISO format (YYYY-MM-DD)")

/-- `Activity.validate_time_format` (shared by `due_time` and
`duration`): blank becomes `None`; a full `HH:MM:SS` match is returned
as-is; for the `duration` field only, `H:MM` / `H:MM:SS` forms are padded
with a leading zero (and `:00` seconds when absent) and `HH:MM` gets
`:00` appended; anything else raises. -/
def Activity.validate_time_format (field_name : String) (v : Option String) :
    Except String (Option String) :=
  match v with
  | none => .ok none
  | some s =>
    if pyStripL s.data = [] then .ok none
    else
      let w := pyStripL s.data
      if matchTimeFull w then .ok (some ⟨w⟩)
      else if field_name = "duration" ∧ matchSingleDigitHour w then
        if w.count ':' = 1 then .ok (some ⟨'0' :: (w ++ ":00".data)⟩)
        else if w.count ':' = 2 then .ok (some ⟨'0' :: w⟩)
        else .error ("Invalid " ++ field_name ++ " format: " ++ (⟨w⟩ : String)
          ++ ". Must be in HH:MM:SS format")
      else if field_name = "duration" ∧ matchHHMM w then
        .ok (some ⟨w ++ ":00".data⟩)
      else .error ("Invalid " ++ field_name ++ " format: " ++ (⟨w⟩ : String)
        ++ ". Must be in HH:MM:SS format")

/-- `Activity.validate_positive_id` (applied to `owner_id`, `deal_id`,
`person_id`, `org_id`, `project_id`, `id`). -/
def Activity.validate_positive_id (v : Option Int) :
    Except String (Option Int) :=
  match v with
  | some x =>
    if x ≤ 0 then .error "ID fields must be positive integers if provided"
    else .ok (some x)
  | none => .ok none

/-- `Activity.validate_lead_id`: blank becomes `None`; the stripped value
must match the RFC 4122 regex after lowercasing, and is returned
unmodified (not lowercased). -/
def Activity.validate_lead_id (v : Option String) :
    Except String (Option String) :=
  match v with
  | none => .ok none
  | some s =>
    if pyStripL s.data = [] then .ok none
    else
      if uuidShape (pyLowerL (pyStripL s.data)) then .ok (some (pyStrip s))
      else .error ("Invalid lead_id format: " ++ pyStrip s
        ++ ". Must be a valid UUID string.")

/-- `Activity.validate_priority`: 0-999 when provided. -/
def Activity.validate_priority (v : Option Int) :
    Except String (Option Int) :=
  match v with
  | some x =>
    if x < 0 ∨ 999 < x then
      .error "Priority must be between 0 and 999 if provided"
    else .ok (some x)
  | none => .ok none

/-- `Activity.validate_activity` (the `after` model validator): both of
its cross-field checks are soft (commented-out warnings in the source),
so it always accepts. -/
def Activity.validate_activity (a : Activity) : Except String Activity :=
  .ok a

/-- Construction of an `Activity`, Pydantic-style: field validators run
in field declaration order, the first failure aborting with its message,
and the `after` model validator runs last.  (Pydantic collects errors
from several fields into one `ValidationError`; the claims under study
only exercise single-failure paths, for which the first-failure
`Except` chain is observationally identical.) -/
def mkActivity (subject type_ : String)
    (due_date due_time duration : Option String)
    (owner_id deal_id : Option Int) (lead_id : Option String)
    (person_id org_id project_id : Option Int) (busy done : Option Bool)
    (note location public_description : Option String)
    (priority id : Option Int) : Except String Activity := do
  let subject ← Activity.validate_subject subject
  let type_ ← Activity.validate_type type_
  let due_date ← Activity.validate_due_date due_date
  let due_time ← Activity.validate_time_format "due_time" due_time
  let duration ← Activity.validate_time_format "duration" duration
  let owner_id ← Activity.validate_positive_id owner_id
  let deal_id ← Activity.validate_positive_id deal_id
  let lead_id ← Activity.validate_lead_id lead_id
  let person_id ← Activity.validate_positive_id person_id
  let org_id ← Activity.validate_positive_id org_id
  let project_id ← Activity.validate_positive_id project_id
  let priority ← Activity.validate_priority priority
  let id ← Activity.validate_positive_id id
  Activity.validate_activity ⟨subject, type_, due_date, due_time, duration,
    owner_id, deal_id, lead_id, person_id, org_id, project_id, busy, done,
    note, location, public_description, priority, id⟩


/-! ## Python dictionary values and `model_dump` serialization -/

/-- `str.upper()` for ASCII letters (mirror of `pyToLower`). -/
def pyToUpper : Char → Char
  | 'a' => 'A' | 'b' => 'B' | 'c' => 'C' | 'd' => 'D' | 'e' => 'E'
  | 'f' => 'F' | 'g' => 'G' | 'h' => 'H' | 'i' => 'I' | 'j' => 'J'
  | 'k' => 'K' | 'l' => 'L' | 'm' => 'M' | 'n' => 'N' | 'o' => 'O'
  | 'p' => 'P' | 'q' => 'Q' | 'r' => 'R' | 's' => 'S' | 't' => 'T'
  | 'u' => 'U' | 'v' => 'V' | 'w' => 'W' | 'x' => 'X' | 'y' => 'Y'
  | 'z' => 'Z'
  | c => c

/-- `str.upper()` on a `String`. -/
def pyUpperStr (s : String) : String :=
  ⟨s.data.map pyToUpper⟩

/-- `str.lower()` on a `String`. -/
def pyLowerStr (s : String) : String :=
  ⟨pyLowerL s.data⟩

/-- ASCII letter (model of `str.isalpha` on the ASCII data this code
meets). -/
def isAsciiAlpha (c : Char) : Bool :=
  ('A' ≤ c && c ≤ 'Z') || ('a' ≤ c && c ≤ 'z')

/-- Truthiness of an `Optional[str]`: `None` and `""` are falsy. -/
def optTruthyStr : Option String → Bool
  | none => false
  | some s => !s.isEmpty

/-- Python values appearing in `model_dump()` dictionaries of these
models.  Floats are represented as rationals (the models only compare
them), `datetime.date` as a year/month/day triple. -/
inductive PyValue where
  | null
  | bool (b : Bool)
  | int (n : Int)
  | float (q : Rat)
  | str (s : String)
  | date (y m d : Nat)
  | list (xs : List PyValue)
  | dict (kvs : List (String × PyValue))

/-- `v is None`. -/
def PyValue.isNull : PyValue → Bool
  | .null => true
  | _ => false

def PyValue.ofOptStr : Option String → PyValue
  | none => .null
  | some s => .str s

def PyValue.ofOptInt : Option Int → PyValue
  | none => .null
  | some n => .int n

def PyValue.ofOptBool : Option Bool → PyValue
  | none => .null
  | some b => .bool b

def PyValue.ofOptFloat : Option Rat → PyValue
  | none => .null
  | some q => .float q

def PyValue.ofOptDate : Option (Nat × Nat × Nat) → PyValue
  | none => .null
  | some (y, m, d) => .date y m d

/-- Zero-padded two-digit decimal. -/
def pad2 (n : Nat) : String :=
  if n < 10 then "0" ++ toString n else toString n

/-- Zero-padded four-digit decimal. -/
def pad4 (n : Nat) : String :=
  if n < 10 then "000" ++ toString n
  else if n < 100 then "00" ++ toString n
  else if n < 1000 then "0" ++ toString n
  else toString n

/-- `date.isoformat()`: `YYYY-MM-DD`. -/
def isoFormat (y m d : Nat) : String :=
  pad4 y ++ "-" ++ pad2 m ++ "-" ++ pad2 d

/-- Python `dict[k] = v` on an association list: replace every entry
carrying key `k` in place, or append the pair when the key is absent. -/
def setKey (kvs : List (String × PyValue)) (k : String) (v : PyValue) :
    List (String × PyValue) :=
  if kvs.any (fun kv => kv.1 == k) then
    kvs.map (fun kv => if kv.1 == k then (k, v) else kv)
  else kvs ++ [(k, v)]

/-- `Activity.model_dump()`: every field in declaration order, optional
fields dumping to `None` when absent. -/
def Activity.model_dump (a : Activity) : List (String × PyValue) :=
  [("subject", .str a.subject),
   ("type", .str a.type),
   ("due_date", .ofOptStr a.due_date),
   ("due_time", .ofOptStr a.due_time),
   ("duration", .ofOptStr a.duration),
   ("owner_id", .ofOptInt a.owner_id),
   ("deal_id", .ofOptInt a.deal_id),
   ("lead_id", .ofOptStr a.lead_id),
   ("person_id", .ofOptInt a.person_id),
   ("org_id", .ofOptInt a.org_id),
   ("project_id", .ofOptInt a.project_id),
   ("busy", .ofOptBool a.busy),
   ("done", .ofOptBool a.done),
   ("note", .ofOptStr a.note),
   ("location", .ofOptStr a.location),
   ("public_description", .ofOptStr a.public_description),
   ("priority", .ofOptInt a.priority),
   ("id", .ofOptInt a.id)]

/-- `Activity.to_api_dict()`: the dump without `None` values and without
the `id` key. -/
def Activity.to_api_dict (a : Activity) : List (String × PyValue) :=
  a.model_dump.filter fun kv => !kv.2.isNull && kv.1 != "id"

/-! ## The `Deal` entity model (`deals/models/deal.py`) -/

/-- The `Deal` Pydantic model's fields, in declaration order.
`expected_close_date` is a typed `datetime.date` (year, month, day). -/
structure Deal where
  title : String
  value : Option Rat
  currency : String
  person_id : Option Int
  org_id : Option Int
  status : String
  owner_id : Option Int
  stage_id : Option Int
  pipeline_id : Option Int
  expected_close_date : Option (Nat × Nat × Nat)
  visible_to : Option Int
  probability : Option Int
  lost_reason : Option String
  id : Option Int
deriving DecidableEq

/-- `Deal.validate_positive_id` (applied to `person_id`, `org_id`,
`owner_id`, `stage_id`, `pipeline_id`, `visible_to`, `id`). -/
def Deal.validate_positive_id (field_name : String) (v : Option Int) :
    Except String (Option Int) :=
  match v with
  | some x =>
    if x ≤ 0 then
      .error (field_name ++ " must be a positive integer if provided")
    else .ok (some x)
  | none => .ok none

/-- `Deal.validate_non_negative_value`. -/
def Deal.validate_non_negative_value (v : Option Rat) :
    Except String (Option Rat) :=
  match v with
  | some x =>
    if x < 0 then .error "Deal value must be non-negative if provided"
    else .ok (some x)
  | none => .ok none

/-- `Deal.validate_probability_range`. -/
def Deal.validate_probability_range (v : Option Int) :
    Except String (Option Int) :=
  match v with
  | some x =>
    if x < 0 ∨ 100 < x then
      .error "Deal probability must be between 0 and 100 if provided"
    else .ok (some x)
  | none => .ok none

/-- The `valid_currencies` set of `Deal.validate_currency`. -/
def validCurrencies : List String :=
  ["USD", "EUR", "GBP", "JPY", "CNY", "AUD", "CAD", "CHF", "HKD", "SGD",
   "SEK", "NOK", "DKK", "NZD", "INR", "BRL", "RUB", "ZAR", "MXN", "AED",
   "PLN", "TRY", "SAR", "ILS", "KRW", "IDR", "THB", "MYR", "PHP"]

/-- `Deal.validate_currency`: empty defaults to `"USD"`; the uppercased
code must have three characters, and an unknown code must be purely
alphabetic. -/
def Deal.validate_currency (v : String) : Except String String :=
  if v = "" then .ok "USD"
  else
    let u := pyUpperStr v
    if u.length ≠ 3 then
      .error ("Invalid currency code: " ++ u
        ++ ". Currency code must be 3 letters.")
    else if u ∈ validCurrencies then .ok u
    else if ¬ (u.data.all isAsciiAlpha) ∨ u.length ≠ 3 then
      .error ("Invalid currency code format: " ++ u
        ++ ". Must be a 3-letter code (e.g., USD, EUR).")
    else .ok u

/-- `Deal.validate_status`: empty defaults to `"open"`; otherwise the
lowercased value must be `open`, `won` or `lost`.  (The Python message
joins a `set`, whose iteration order is an implementation detail; one
order is fixed here.) -/
def Deal.validate_status (v : String) : Except String String :=
  if v = "" then .ok "open"
  else
    let u := pyLowerStr v
    if u = "open" ∨ u = "won" ∨ u = "lost" then .ok u
    else .error ("Invalid status: " ++ u ++ ". Must be one of: open, won, lost")

/-- `Deal.validate_title`. -/
def Deal.validate_title (v : String) : Except String String :=
  if pyStripL v.data = [] then .error "Deal title cannot be empty"
  else .ok (pyStrip v)

/-- `Deal.validate_deal` (the `after` model validator): `lost_reason`
may only be truthy (non-`None`, non-empty) when the status is
`"lost"`. -/
def Deal.validate_deal (d : Deal) : Except String Deal :=
  if d.status ≠ "lost" ∧ optTruthyStr d.lost_reason then
    .error "Lost reason can only be set if deal status is 'lost'"
  else .ok d

/-- Construction of a `Deal`, Pydantic-style: field validators in field
declaration order, then the `after` model validator. -/
def mkDeal (title : String) (value : Option Rat) (currency : String)
    (person_id org_id : Option Int) (status : String)
    (owner_id stage_id pipeline_id : Option Int)
    (expected_close_date : Option (Nat × Nat × Nat))
    (visible_to probability : Option Int) (lost_reason : Option String)
    (id : Option Int) : Except String Deal := do
  let title ← Deal.validate_title title
  let value ← Deal.validate_non_negative_value value
  let currency ← Deal.validate_currency currency
  let person_id ← Deal.validate_positive_id "person_id" person_id
  let org_id ← Deal.validate_positive_id "org_id" org_id
  let status ← Deal.validate_status status
  let owner_id ← Deal.validate_positive_id "owner_id" owner_id
  let stage_id ← Deal.validate_positive_id "stage_id" stage_id
  let pipeline_id ← Deal.validate_positive_id "pipeline_id" pipeline_id
  let visible_to ← Deal.validate_positive_id "visible_to" visible_to
  let probability ← Deal.validate_probability_range probability
  let id ← Deal.validate_positive_id "id" id
  Deal.validate_deal ⟨title, value, currency, person_id, org_id, status,
    owner_id, stage_id, pipeline_id, expected_close_date, visible_to,
    probability, lost_reason, id⟩

/-- `Deal.model_dump()`. -/
def Deal.model_dump (d : Deal) : List (String × PyValue) :=
  [("title", .str d.title),
   ("value", .ofOptFloat d.value),
   ("currency", .str d.currency),
   ("person_id", .ofOptInt d.person_id),
   ("org_id", .ofOptInt d.org_id),
   ("status", .str d.status),
   ("owner_id", .ofOptInt d.owner_id),
   ("stage_id", .ofOptInt d.stage_id),
   ("pipeline_id", .ofOptInt d.pipeline_id),
   ("expected_close_date", .ofOptDate d.expected_close_date),
   ("visible_to", .ofOptInt d.visible_to),
   ("probability", .ofOptInt d.probability),
   ("lost_reason", .ofOptStr d.lost_reason),
   ("id", .ofOptInt d.id)]

/-- `Deal.to_api_dict()`: drop `None` values and the `id` key, then
overwrite `expected_close_date` (a truthy `date`) with its ISO string. -/
def Deal.to_api_dict (d : Deal) : List (String × PyValue) :=
  let base := d.model_dump.filter fun kv => !kv.2.isNull && kv.1 != "id"
  match d.expected_close_date with
  | some (y, m, dd) => setKey base "expected_close_date" (.str (isoFormat y m dd))
  | none => base

/-! ## The `DealProduct` model (`deals/models/deal_product.py`) -/

/-- The `DealProduct` Pydantic model's fields, in declaration order. -/
structure DealProduct where
  product_id : Int
  item_price : Rat
  quantity : Int
  discount : Rat
  tax : Rat
  comments : Option String
  currency : String
  discount_type : String
  tax_method : String
  is_enabled : Bool
  product_variation_id : Option Int
  billing_frequency : String
  billing_frequency_cycles : Option Int
  billing_start_date : Option String
  deal_id : Option Int
  id : Option Int
deriving DecidableEq

/-- `DealProduct.validate_deal_product` (the only validator of the
model): price/quantity positivity, enumerated discount type, tax method
and billing frequency, and the billing-cycle cross-field rules, checked
in source order. -/
def DealProduct.validate_deal_product (p : DealProduct) :
    Except String DealProduct :=
  if p.item_price ≤ 0 then
    .error "Product price must be greater than zero"
  else if p.quantity ≤ 0 then
    .error "Product quantity must be greater than zero"
  else if ¬ (p.discount_type = "percentage" ∨ p.discount_type = "amount") then
    .error "Discount type must be one of: percentage, amount"
  else if ¬ (p.tax_method = "inclusive" ∨ p.tax_method = "exclusive"
      ∨ p.tax_method = "none") then
    .error "Tax method must be one of: inclusive, exclusive, none"
  else if ¬ (p.billing_frequency ∈ ["one-time", "annually", "semi-annually",
      "quarterly", "monthly", "weekly"]) then
    .error ("Billing frequency must be one of: one-time, annually, "
      ++ "semi-annually, quarterly, monthly, weekly")
  else if p.billing_frequency = "one-time" ∧ p.billing_frequency_cycles ≠ none then
    .error "Billing frequency cycles must be null when billing frequency is 'one-time'"
  else if p.billing_frequency = "weekly" ∧ p.billing_frequency_cycles = none then
    .error "Billing frequency cycles cannot be null when billing frequency is 'weekly'"
  else
    match p.billing_frequency_cycles with
    | some c =>
      if c ≤ 0 ∨ 208 < c then
        .error "Billing frequency cycles must be a positive integer less than or equal to 208"
      else .ok p
    | none => .ok p

/-- Construction of a `DealProduct`: the model has no field validators,
so construction is the `after` model validator alone. -/
def mkDealProduct (product_id : Int) (item_price : Rat) (quantity : Int)
    (discount tax : Rat) (comments : Option String) (currency : String)
    (discount_type tax_method : String) (is_enabled : Bool)
    (product_variation_id : Option Int) (billing_frequency : String)
    (billing_frequency_cycles : Option Int)
    (billing_start_date : Option String) (deal_id id : Option Int) :
    Except String DealProduct :=
  DealProduct.validate_deal_product ⟨product_id, item_price, quantity,
    discount, tax, comments, currency, discount_type, tax_method,
    is_enabled, product_variation_id, billing_frequency,
    billing_frequency_cycles, billing_start_date, deal_id, id⟩

/-! ## The `Person` entity model (`persons/models/person.py`,
`contact_info.py`) -/

/-- `Email` contact information (`value`, `label`, `primary`). -/
structure Email where
  value : String
  label : String
  primary : Bool
deriving DecidableEq

/-- `Phone` contact information. -/
structure Phone where
  value : String
  label : String
  primary : Bool
deriving DecidableEq

/-- `ContactInfo.to_dict` for an `Email`; Pydantic's `model_dump` of the
nested model produces the same three-key dictionary. -/
def Email.to_dict (e : Email) : PyValue :=
  .dict [("value", .str e.value), ("label", .str e.label),
    ("primary", .bool e.primary)]

/-- `ContactInfo.to_dict` for a `Phone`. -/
def Phone.to_dict (p : Phone) : PyValue :=
  .dict [("value", .str p.value), ("label", .str p.label),
    ("primary", .bool p.primary)]

/-- The `Person` Pydantic model's fields, in declaration order. -/
structure Person where
  name : String
  owner_id : Option Int
  org_id : Option Int
  emails : List Email
  phones : List Phone
  visible_to : Option Int
  id : Option Int
deriving DecidableEq

/-- `Person.validate_person` (the only validator): non-blank name. -/
def Person.validate_person (p : Person) : Except String Person :=
  if pyStripL p.name.data = [] then .error "Person name cannot be empty"
  else .ok p

/-- Construction of a `Person`. -/
def mkPerson (name : String) (owner_id org_id : Option Int)
    (emails : List Email) (phones : List Phone)
    (visible_to id : Option Int) : Except String Person :=
  Person.validate_person ⟨name, owner_id, org_id, emails, phones,
    visible_to, id⟩

/-- `Person.model_dump()`: nested models dump to plain dictionaries. -/
def Person.model_dump (p : Person) : List (String × PyValue) :=
  [("name", .str p.name),
   ("owner_id", .ofOptInt p.owner_id),
   ("org_id", .ofOptInt p.org_id),
   ("emails", .list (p.emails.map Email.to_dict)),
   ("phones", .list (p.phones.map Phone.to_dict)),
   ("visible_to", .ofOptInt p.visible_to),
   ("id", .ofOptInt p.id)]

/-- `Person.to_api_dict()`: drop `None` values and the `id` key, then
(for non-empty lists) overwrite `emails`/`phones` with the explicit
`to_dict` serialization. -/
def Person.to_api_dict (p : Person) : List (String × PyValue) :=
  let base := p.model_dump.filter fun kv => !kv.2.isNull && kv.1 != "id"
  let base := if p.emails ≠ [] then
      setKey base "emails" (.list (p.emails.map Email.to_dict))
    else base
  if p.phones ≠ [] then
    setKey base "phones" (.list (p.phones.map Phone.to_dict))
  else base


/-! ## Feature gating (`tool_decorator.py`) -/

/-- Modelled from the spec: the feature registry (`tool_registry.py`,
whose source is not among the files here; §4.4 of the specification
describes "a mapping from feature name to its tool functions and an
enabled/disabled set").  Only the state the decorator queries is
modelled. -/
structure FeatureRegistry where
  features : List String
  enabled : List String

/-- Modelled from the spec: `registry.is_feature_enabled`, membership in
the enabled set. -/
def FeatureRegistry.is_feature_enabled (r : FeatureRegistry)
    (feature_id : String) : Bool :=
  r.enabled.contains feature_id

/-- Result of invoking a wrapped tool: either the refusal message or the
underlying tool's value. -/
inductive WrapResult (β : Type) where
  | refused (msg : String)
  | executed (b : β)

/-- The `wrapper` closure produced by the `tool(feature_id)` decorator in
`tool_decorator.py`: when the feature is disabled the fixed refusal
string is returned and the wrapped `mcp_decorated` function is not
invoked; otherwise its result is returned unchanged. -/
def wrapTool {α β : Type} (registry : FeatureRegistry) (feature_id : String)
    (mcp_decorated : α → β) (args : α) : WrapResult β :=
  if registry.is_feature_enabled feature_id then
    .executed (mcp_decorated args)
  else
    .refused ("This tool is not available because the '" ++ feature_id
      ++ "' feature is disabled. Please contact your administrator.")

/-! ## The activity-creation tool
(`activities/tools/activity_create_tool.py`, `shared/utils.py`) -/

/-- Modelled from the spec: `sanitize_inputs` (imported from
`shared/utils.py`, which in the files here does not define it; §4.3
step 1 of the specification: "Normalize inputs (blank-string → `None`)"),
applied to one value. -/
def sanitize_value (v : Option String) : Option String :=
  match v with
  | none => none
  | some s => if pyStripL s.data = [] then none else some s

/-- The response envelope produced by `format_tool_response` in
`shared/utils.py` (`{"success": ..., "data": ..., "error": ...}`); the
`json.dumps` serialization of the envelope is elided. -/
structure ToolResponse where
  success : Bool
  data : Option PyValue
  error : Option String

/-- `format_tool_response(success, data, error_message)`. -/
def format_tool_response (success : Bool) (data : Option PyValue)
    (error_message : Option String) : ToolResponse :=
  ⟨success, data, error_message⟩

/-- The regex `^[0-9]{4}-[0-9]{2}-[0-9]{2}$` of
`id_conversion.validate_date_string`. -/
def matchDatePattern : List Char → Bool
  | [y1, y2, y3, y4, '-', m1, m2, '-', d1, d2] =>
    [y1, y2, y3, y4, m1, m2, d1, d2].all isAsciiDigit
  | _ => false

/-- `validate_date_string` from `shared/conversion/id_conversion.py`:
shape check only, no calendar validation. -/
def validate_date_string (date_str : Option String)
    (field_name expected_format ex : String) :
    Option String × Option String :=
  match date_str with
  | none => (none, none)
  | some s =>
    if pyStripL s.data = [] then (none, none)
    else if matchDatePattern s.data then (some s, none)
    else (none, some (field_name ++ " must be in " ++ expected_format
      ++ " format. Example: '" ++ ex ++ "'"))

/-- The inline duration check of `create_activity_in_pipedrive`
(seconds as a numeric string; the original string is kept). -/
def tool_duration_check (duration : Option String) :
    Except ToolResponse (Option String) :=
  match duration with
  | none => .ok none
  | some dur =>
    match pyIntParse dur with
    | none => .error (format_tool_response false none
        (some "duration must be a numeric string representing seconds. Example: '3600' for 1 hour"))
    | some n =>
      if n < 0 then .error (format_tool_response false none
        (some "duration must be a positive integer representing seconds. Example: '3600' for 1 hour"))
      else .ok (some dur)

/-- The inline priority check of `create_activity_in_pipedrive`.  It
receives the raw `priority` parameter (the handler assigns the sanitized
value to `priority_str`, which is never used again, and tests
`if priority:` on the raw string), so the empty string is falsy and
skipped while a whitespace-only string reaches `int(priority)` and
fails. -/
def tool_priority_check (priority : Option String) :
    Except ToolResponse (Option Int) :=
  match priority with
  | none => .ok none
  | some pr =>
    if pr = "" then .ok none
    else match pyIntParse pr with
    | none => .error (format_tool_response false none
        (some "Priority must be a numeric string. Example: '1'"))
    | some n =>
      if n < 0 then .error (format_tool_response false none
        (some "Priority must be a positive integer. Example: '1'"))
      else .ok (some n)

/-- The `create_activity_in_pipedrive` tool handler.  `api` is the
behavior of the remote client call
(`pipedrive_client.activities.create_activity`), an external
collaborator: `.ok` is its response dictionary, `.error` a
`PipedriveAPIError` message.  The result is `some (envelope, called)`
where `called` records whether the remote call was made, or `none` for
the handler raising: with a non-blank `due_time` the source hits
`re.match` at line 208 without having imported `re` (a `NameError`
outside the `try` block).  The sanitized priority is bound to the unused
`priority_str` (line 135) while the checks at lines 233-244 read the raw
`priority` parameter, which is mirrored here.  Pydantic's
`ValidationError` prose around the failing validator's message is
abbreviated to the message itself. -/
def create_activity_in_pipedrive (api : Except String PyValue)
    (subject type_ : String)
    (owner_id deal_id lead_id person_id org_id : Option String)
    (due_date due_time duration : Option String)
    (busy done : Option Bool)
    (note location public_description priority : Option String) :
    Option (ToolResponse × Bool) :=
  let owner_id := sanitize_value owner_id
  let deal_id := sanitize_value deal_id
  let lead_id := sanitize_value lead_id
  let person_id := sanitize_value person_id
  let org_id := sanitize_value org_id
  let due_date := sanitize_value due_date
  let due_time := sanitize_value due_time
  let duration := sanitize_value duration
  let note := sanitize_value note
  let location := sanitize_value location
  let public_description := sanitize_value public_description
  match (sanitize_value (some subject)).map pyStrip with
  | none => some (format_tool_response false none
      (some "The 'subject' field is required and cannot be empty."), false)
  | some subject =>
  match (sanitize_value (some type_)).map pyStrip with
  | none => some (format_tool_response false none
      (some "The 'type' field is required and cannot be empty."), false)
  | some type_ =>
  match convert_id_string owner_id "owner_id" "123" with
  | (_, some e) => some (format_tool_response false none (some e), false)
  | (owner_id_int, none) =>
  match convert_id_string deal_id "deal_id" "123" with
  | (_, some e) => some (format_tool_response false none (some e), false)
  | (deal_id_int, none) =>
  match convert_id_string person_id "person_id" "123" with
  | (_, some e) => some (format_tool_response false none (some e), false)
  | (person_id_int, none) =>
  match convert_id_string org_id "org_id" "123" with
  | (_, some e) => some (format_tool_response false none (some e), false)
  | (org_id_int, none) =>
  match validate_uuid_string lead_id "lead_id"
      "123e4567-e89b-12d3-a456-426614174000" with
  | (_, some e) => some (format_tool_response false none (some e), false)
  | (lead_id_uuid, none) =>
  match validate_date_string due_date "due_date" "YYYY-MM-DD" "2025-01-15" with
  | (_, some e) => some (format_tool_response false none (some e), false)
  | (validated_due_date, none) =>
  match due_time with
  | some _ => none
  | none =>
  match tool_duration_check duration with
  | .error resp => some (resp, false)
  | .ok validated_duration =>
  match tool_priority_check priority with
  | .error resp => some (resp, false)
  | .ok priority_int =>
  match mkActivity subject type_ validated_due_date none validated_duration
      owner_id_int deal_id_int lead_id_uuid person_id_int org_id_int none
      busy done note location public_description priority_int none with
  | .error e => some (format_tool_response false none
      (some ("Validation error: " ++ e)), false)
  | .ok _activity =>
  match api with
  | .ok created => some (format_tool_response true (some created) none, true)
  | .error e => some (format_tool_response false none
      (some ("Pipedrive API error: " ++ e)), true)

/-! ## Theorems -/

theorem pyDigitsAux_ne_none_exists (acc : Nat) (l : List Char) :
    pyDigitsAux acc l = none ∨ ∃ n, pyDigitsAux acc l = some n := by
  cases h : pyDigitsAux acc l with
  | none => exact Or.inl rfl
  | some n => exact Or.inr ⟨n, rfl⟩

/-- If `int(s)` succeeds then `s.strip()` is non-empty (the parse consumes
at least one digit). -/
theorem pyStrip_ne_nil_of_parse (s : String) (v : Int)
    (h : pyIntParse s = some v) : pyStripL s.data ≠ [] := by
  intro hnil
  unfold pyIntParse at h
  rw [hnil] at h
  simp [pyDigits] at h

/-- Claim C1: for every string parsing as a positive integer,
`convert_id_string` returns `(int(s), None)`; for `None` or blank input it
returns `(None, None)`; for every other input it returns `(None, e)` with
`e` an error message containing the field name. -/
theorem claim_C1 :
    (∀ (s f e : String) (v : Int), pyIntParse s = some v → 0 < v →
        convert_id_string (some s) f e = (some v, none))
  ∧ (∀ (f e : String), convert_id_string none f e = (none, none))
  ∧ (∀ (s f e : String), pyStripL s.data = [] →
        convert_id_string (some s) f e = (none, none))
  ∧ (∀ (s f e : String), pyStripL s.data ≠ [] →
        (pyIntParse s = none ∨ ∃ v, pyIntParse s = some v ∧ v ≤ 0) →
        (convert_id_string (some s) f e).1 = none ∧
        ∃ msg rest, (convert_id_string (some s) f e).2 = some msg ∧
          msg = f ++ rest) := by
  refine ⟨?_, ?_, ?_, ?_⟩
  · intro s f e v hp hv
    have hs := pyStrip_ne_nil_of_parse s v hp
    simp [convert_id_string, hs, hp, not_le.mpr hv]
  · intro f e
    rfl
  · intro s f e hblank
    simp [convert_id_string, hblank]
  · intro s f e hs herr
    rcases herr with hn | ⟨v, hv, hle⟩
    · refine ⟨by simp [convert_id_string, hs, hn],
        f ++ " must be a numeric string. Example: '" ++ e ++ "'",
        " must be a numeric string. Example: '" ++ e ++ "'",
        by simp [convert_id_string, hs, hn],
        by simp [String.append_assoc]⟩
    · refine ⟨by simp [convert_id_string, hs, hv, hle],
        f ++ " must be a positive integer. Example: '" ++ e ++ "'",
        " must be a positive integer. Example: '" ++ e ++ "'",
        by simp [convert_id_string, hs, hv, hle],
        by simp [String.append_assoc]⟩

/-- Claim C1, instantiated at concrete inputs. -/
theorem claim_C1_witness :
    convert_id_string (some "42") "owner_id" "123" = (some 42, none)
  ∧ convert_id_string none "owner_id" "123" = (none, none)
  ∧ convert_id_string (some "  ") "owner_id" "123" = (none, none)
  ∧ ((convert_id_string (some "abc") "owner_id" "123").1 = none ∧
      ∃ msg rest, (convert_id_string (some "abc") "owner_id" "123").2
        = some msg ∧ msg = "owner_id" ++ rest) := by
  refine ⟨claim_C1.1 "42" "owner_id" "123" 42 (by decide) (by decide),
    claim_C1.2.1 "owner_id" "123",
    claim_C1.2.2.1 "  " "owner_id" "123" (by decide),
    claim_C1.2.2.2 "abc" "owner_id" "123" (by decide) (Or.inl (by decide))⟩

/-- Claim C2, counterexample: on input `"0"` (which parses to a
non-positive integer) the error message says "must be a positive
integer", not "must be a numeric string". -/
theorem claim_C2_counterexample :
    convert_id_string (some "0") "person_id" "123"
      = (none, some "person_id must be a positive integer. Example: '123'")
  ∧ ¬ ("must be a numeric string".data
        <:+: "person_id must be a positive integer. Example: '123'".data) := by
  constructor
  · decide
  · decide

/-- Claim C2, amended: a non-numeric string fails with the
"must be a numeric string" message, while a string parsing to an integer
`≤ 0` fails with the distinct "must be a positive integer" message. -/
theorem claim_C2_amended :
    (∀ (s f e : String), pyStripL s.data ≠ [] → pyIntParse s = none →
        convert_id_string (some s) f e
          = (none, some (f ++ " must be a numeric string. Example: '"
              ++ e ++ "'")))
  ∧ (∀ (s f e : String) (v : Int), pyIntParse s = some v → v ≤ 0 →
        convert_id_string (some s) f e
          = (none, some (f ++ " must be a positive integer. Example: '"
              ++ e ++ "'"))) := by
  constructor
  · intro s f e hs hn
    simp [convert_id_string, hs, hn]
  · intro s f e v hv hle
    have hs := pyStrip_ne_nil_of_parse s v hv
    simp [convert_id_string, hs, hv, hle]

/-- Claim C2 (amended), instantiated at concrete inputs. -/
theorem claim_C2_amended_witness :
    convert_id_string (some "abc") "org_id" "123"
      = (none, some "org_id must be a numeric string. Example: '123'")
  ∧ convert_id_string (some "-7") "org_id" "123"
      = (none, some "org_id must be a positive integer. Example: '123'") := by
  constructor
  · have h := claim_C2_amended.1 "abc" "org_id" "123" (by decide) (by decide)
    simpa using h
  · have h := claim_C2_amended.2 "-7" "org_id" "123" (-7) (by decide) (by decide)
    simpa using h

theorem pyToLower_fix_of_lowerHex (c : Char) (h : isLowerHex c = true) :
    pyToLower c = c := by
  unfold pyToLower
  split <;> simp_all [isLowerHex]

theorem eq_dash_of_pyToLower_eq_dash (c : Char) (h : pyToLower c = '-') :
    c = '-' := by
  revert h
  unfold pyToLower
  split <;> intro h <;> simp_all

theorem ne_dash_of_lowerHex_pyToLower (c : Char)
    (h : isLowerHex (pyToLower c) = true) : c ≠ '-' := by
  intro hc
  subst hc
  simp [pyToLower, isLowerHex] at h

theorem not_space_of_lowerHex_pyToLower (c : Char)
    (h : isLowerHex (pyToLower c) = true) : isPySpace c = false := by
  rcases hc : isPySpace c with _ | _
  · rfl
  · exfalso
    simp [isPySpace] at hc
    rcases hc with ((((rfl | rfl) | rfl) | rfl) | rfl) | rfl <;>
      simp [pyToLower, isLowerHex] at h

theorem expectDash_some {r r' : List Char} (h : expectDash r = some r') :
    r = '-' :: r' := by
  unfold expectDash at h
  split at h
  · injection h with h
    rw [h]
  · exact absurd h (by simp)

theorem expectNil_some {r : List Char} {u : Unit}
    (h : expectNil r = some u) : r = [] := by
  unfold expectNil at h
  split at h
  · rfl
  · exact absurd h (by simp)

theorem hexRun_some {n : Nat} {l r : List Char} (h : hexRun n l = some r) :
    ∃ g, l = g ++ r ∧ g.length = n ∧ ∀ c ∈ g, isLowerHex c = true := by
  induction n generalizing l with
  | zero =>
    simp [hexRun] at h
    exact ⟨[], by simp [h], rfl, by simp⟩
  | succ n ih =>
    cases l with
    | nil => simp [hexRun] at h
    | cons c l =>
      by_cases hc : isLowerHex c = true
      · rw [hexRun, if_pos hc] at h
        obtain ⟨g, rfl, hlen, hall⟩ := ih h
        refine ⟨c :: g, rfl, by simp [hlen], ?_⟩
        intro x hx
        rcases List.mem_cons.mp hx with rfl | hx
        · exact hc
        · exact hall x hx
      · rw [hexRun, if_neg hc] at h
        exact absurd h (by simp)

theorem uuidShape_decomp {l : List Char} (h : uuidShape l = true) :
    ∃ G1 G2 G3 G4 G5 : List Char,
      l = G1 ++ '-' :: (G2 ++ '-' :: (G3 ++ '-' :: (G4 ++ '-' :: G5)))
      ∧ G1.length = 8 ∧ G2.length = 4 ∧ G3.length = 4 ∧ G4.length = 4
      ∧ G5.length = 12
      ∧ (∀ c ∈ G1, isLowerHex c = true) ∧ (∀ c ∈ G2, isLowerHex c = true)
      ∧ (∀ c ∈ G3, isLowerHex c = true) ∧ (∀ c ∈ G4, isLowerHex c = true)
      ∧ (∀ c ∈ G5, isLowerHex c = true) := by
  have h' : ∃ u, (do
      let r1 ← hexRun 8 l
      let r1 ← expectDash r1
      let r2 ← hexRun 4 r1
      let r2 ← expectDash r2
      let r3 ← hexRun 4 r2
      let r3 ← expectDash r3
      let r4 ← hexRun 4 r3
      let r4 ← expectDash r4
      let r5 ← hexRun 12 r4
      expectNil r5) = some u := by
    rw [uuidShape, Option.isSome_iff_exists] at h
    exact h
  obtain ⟨u, h'⟩ := h'
  simp only [bind, Option.bind_eq_some] at h'
  obtain ⟨a1, h8, a1', hd1, a2, h4a, a2', hd2, a3, h4b, a3', hd3,
    a4, h4c, a4', hd4, a5, h12, hnil⟩ := h'
  obtain rfl := expectDash_some hd1
  obtain rfl := expectDash_some hd2
  obtain rfl := expectDash_some hd3
  obtain rfl := expectDash_some hd4
  obtain rfl := expectNil_some hnil
  obtain ⟨G1, rfl, hl1, hx1⟩ := hexRun_some h8
  obtain ⟨G2, rfl, hl2, hx2⟩ := hexRun_some h4a
  obtain ⟨G3, rfl, hl3, hx3⟩ := hexRun_some h4b
  obtain ⟨G4, rfl, hl4, hx4⟩ := hexRun_some h4c
  obtain ⟨G5, hr5, hl5, hx5⟩ := hexRun_some h12
  refine ⟨G1, G2, G3, G4, G5, ?_, hl1, hl2, hl3, hl4, hl5,
    hx1, hx2, hx3, hx4, hx5⟩
  simp [hr5]

theorem pyUUIDParseL_of_shape {l : List Char}
    (h : uuidShape (pyLowerL l) = true) :
    pyUUIDParseL l = some (pyLowerL l) := by
  obtain ⟨G1, G2, G3, G4, G5, hdec, hl1, hl2, hl3, hl4, hl5,
    hx1, hx2, hx3, hx4, hx5⟩ := uuidShape_decomp h
  rw [pyLowerL] at hdec
  obtain ⟨g1, t, rfl, hg1, ht⟩ := List.map_eq_append_iff.mp hdec
  obtain ⟨d1, t1, rfl, hd1, ht1⟩ := List.map_eq_cons_iff.mp ht
  obtain ⟨g2, t, rfl, hg2, ht⟩ := List.map_eq_append_iff.mp ht1
  obtain ⟨d2, t2, rfl, hd2, ht2⟩ := List.map_eq_cons_iff.mp ht
  obtain ⟨g3, t, rfl, hg3, ht⟩ := List.map_eq_append_iff.mp ht2
  obtain ⟨d3, t3, rfl, hd3, ht3⟩ := List.map_eq_cons_iff.mp ht
  obtain ⟨g4, t, rfl, hg4, ht⟩ := List.map_eq_append_iff.mp ht3
  obtain ⟨d4, g5, rfl, hd4, hg5⟩ := List.map_eq_cons_iff.mp ht
  obtain rfl := eq_dash_of_pyToLower_eq_dash _ hd1
  obtain rfl := eq_dash_of_pyToLower_eq_dash _ hd2
  obtain rfl := eq_dash_of_pyToLower_eq_dash _ hd3
  obtain rfl := eq_dash_of_pyToLower_eq_dash _ hd4
  have hci1 : ∀ c ∈ g1, isLowerHex (pyToLower c) = true := fun c hc =>
    hx1 _ (hg1 ▸ List.mem_map_of_mem pyToLower hc)
  have hci2 : ∀ c ∈ g2, isLowerHex (pyToLower c) = true := fun c hc =>
    hx2 _ (hg2 ▸ List.mem_map_of_mem pyToLower hc)
  have hci3 : ∀ c ∈ g3, isLowerHex (pyToLower c) = true := fun c hc =>
    hx3 _ (hg3 ▸ List.mem_map_of_mem pyToLower hc)
  have hci4 : ∀ c ∈ g4, isLowerHex (pyToLower c) = true := fun c hc =>
    hx4 _ (hg4 ▸ List.mem_map_of_mem pyToLower hc)
  have hci5 : ∀ c ∈ g5, isLowerHex (pyToLower c) = true := fun c hc =>
    hx5 _ (hg5 ▸ List.mem_map_of_mem pyToLower hc)
  have hf1 : g1.filter (fun c => c != '-') = g1 :=
    List.filter_eq_self.mpr fun a ha => by
      simpa using ne_dash_of_lowerHex_pyToLower a (hci1 a ha)
  have hf2 : g2.filter (fun c => c != '-') = g2 :=
    List.filter_eq_self.mpr fun a ha => by
      simpa using ne_dash_of_lowerHex_pyToLower a (hci2 a ha)
  have hf3 : g3.filter (fun c => c != '-') = g3 :=
    List.filter_eq_self.mpr fun a ha => by
      simpa using ne_dash_of_lowerHex_pyToLower a (hci3 a ha)
  have hf4 : g4.filter (fun c => c != '-') = g4 :=
    List.filter_eq_self.mpr fun a ha => by
      simpa using ne_dash_of_lowerHex_pyToLower a (hci4 a ha)
  have hf5 : g5.filter (fun c => c != '-') = g5 :=
    List.filter_eq_self.mpr fun a ha => by
      simpa using ne_dash_of_lowerHex_pyToLower a (hci5 a ha)
  have hlen1 : g1.length = 8 := by
    have := congrArg List.length hg1
    simpa [hl1] using this
  have hlen2 : g2.length = 4 := by
    have := congrArg List.length hg2
    simpa [hl2] using this
  have hlen3 : g3.length = 4 := by
    have := congrArg List.length hg3
    simpa [hl3] using this
  have hlen4 : g4.length = 4 := by
    have := congrArg List.length hg4
    simpa [hl4] using this
  have hlen5 : g5.length = 12 := by
    have := congrArg List.length hg5
    simpa [hl5] using this
  have hfilter : (g1 ++ '-' :: (g2 ++ '-' :: (g3 ++ '-' :: (g4 ++ '-' :: g5)))).filter
      (fun c => c != '-') = g1 ++ (g2 ++ (g3 ++ (g4 ++ g5))) := by
    simp [List.filter_append, hf1, hf2, hf3, hf4, hf5]
  have hlenall : (g1 ++ (g2 ++ (g3 ++ (g4 ++ g5)))).length = 32 := by
    simp [hlen1, hlen2, hlen3, hlen4, hlen5]
  have hallhex : (g1 ++ (g2 ++ (g3 ++ (g4 ++ g5)))).all isHexDigitCI = true := by
    simp only [List.all_append, Bool.and_eq_true]
    refine ⟨List.all_eq_true.mpr fun c hc => hci1 c hc,
      List.all_eq_true.mpr fun c hc => hci2 c hc,
      List.all_eq_true.mpr fun c hc => hci3 c hc,
      List.all_eq_true.mpr fun c hc => hci4 c hc,
      List.all_eq_true.mpr fun c hc => hci5 c hc⟩
  have hformat : formatUuid (pyLowerL (g1 ++ (g2 ++ (g3 ++ (g4 ++ g5)))))
      = pyLowerL (g1 ++ '-' :: (g2 ++ '-' :: (g3 ++ '-' :: (g4 ++ '-' :: g5)))) := by
    have hdash : pyToLower '-' = '-' := by decide
    rw [pyLowerL, pyLowerL]
    simp only [List.map_append, List.map_cons, hg1, hg2, hg3, hg4, hg5, hdash]
    rw [formatUuid]
    rw [List.take_left' hl1, List.drop_left' hl1,
      List.take_left' hl2, List.drop_left' hl2,
      List.take_left' hl3, List.drop_left' hl3,
      List.take_left' hl4, List.drop_left' hl4]
    simp [List.append_assoc]
  simp only [pyUUIDParseL, hfilter]
  rw [if_pos (by simp [hlenall, hallhex])]
  rw [hformat]

theorem map_fix_eq_self {f : Char → Char} {l : List Char}
    (h : ∀ c ∈ l, f c = c) : l.map f = l := by
  induction l with
  | nil => rfl
  | cons c l ih =>
    rw [List.map_cons, h c (by simp), ih fun x hx => h x (by simp [hx])]

theorem pyStripL_all_space {l : List Char} (h : pyStripL l = []) :
    ∀ c ∈ l, isPySpace c = true := by
  intro c hc
  unfold pyStripL at h
  rw [List.reverse_eq_nil_iff] at h
  have hall := List.dropWhile_eq_nil_iff.mp h
  conv at hc => rw [← List.takeWhile_append_dropWhile isPySpace l]
  rcases List.mem_append.mp hc with hc | hc
  · exact List.mem_takeWhile_imp hc
  · exact hall c (List.mem_reverse.mpr hc)

theorem pyStripL_ne_nil_of_shape {l : List Char}
    (h : uuidShape (pyLowerL l) = true) : pyStripL l ≠ [] := by
  intro hnil
  have hsp := pyStripL_all_space hnil
  obtain ⟨G1, G2, G3, G4, G5, hdec, hl1, _, _, _, _, hx1, _⟩ := uuidShape_decomp h
  have hne : G1 ≠ [] := by
    intro hG
    rw [hG] at hl1
    simp at hl1
  obtain ⟨x, hx⟩ := List.exists_mem_of_ne_nil G1 hne
  have hxl : x ∈ pyLowerL l := by
    rw [hdec]
    simp [hx]
  obtain ⟨c, hcl, rfl⟩ := List.mem_map.mp hxl
  have := not_space_of_lowerHex_pyToLower c (hx1 _ hx)
  rw [hsp c hcl] at this
  exact Bool.true_eq_false.mp this

theorem pyLowerL_fix_of_shape {l : List Char} (h : uuidShape l = true) :
    pyLowerL l = l := by
  obtain ⟨G1, G2, G3, G4, G5, rfl, _, _, _, _, _, hx1, hx2, hx3, hx4, hx5⟩ :=
    uuidShape_decomp h
  refine map_fix_eq_self ?_
  intro c hc
  simp only [List.mem_append, List.mem_cons] at hc
  have hdash : pyToLower '-' = '-' := by decide
  rcases hc with hc | rfl | hc | rfl | hc | rfl | hc | rfl | hc
  · exact pyToLower_fix_of_lowerHex c (hx1 c hc)
  · exact hdash
  · exact pyToLower_fix_of_lowerHex c (hx2 c hc)
  · exact hdash
  · exact pyToLower_fix_of_lowerHex c (hx3 c hc)
  · exact hdash
  · exact pyToLower_fix_of_lowerHex c (hx4 c hc)
  · exact hdash
  · exact pyToLower_fix_of_lowerHex c (hx5 c hc)

/-- Claim C3. -/
theorem claim_C3 :
    (∀ (s f e : String), uuidShape s.data = true →
        validate_uuid_string (some s) f e = (some s, none))
  ∧ (∀ (s f e : String), uuidShape (pyLowerL s.data) = true →
        validate_uuid_string (some s) f e = (some ⟨pyLowerL s.data⟩, none))
  ∧ (∀ (s f e : String), uuidShape (pyLowerL s.data) = false →
        pyStripL s.data ≠ [] →
        validate_uuid_string (some s) f e
          = (none, some (f ++ " must be a valid UUID string. Example: '"
              ++ e ++ "'")))
  ∧ (∀ (f e : String), validate_uuid_string none f e = (none, none))
  ∧ (∀ (s f e : String), pyStripL s.data = [] →
        validate_uuid_string (some s) f e = (none, none)) := by
  have key : ∀ (s f e : String), uuidShape (pyLowerL s.data) = true →
      validate_uuid_string (some s) f e = (some ⟨pyLowerL s.data⟩, none) := by
    intro s f e hsh
    have hne := pyStripL_ne_nil_of_shape hsh
    have hp : pyUUIDParse s = some ⟨pyLowerL s.data⟩ := by
      rw [pyUUIDParse, pyUUIDParseL_of_shape hsh, Option.map_some']
    simp [validate_uuid_string, hne, hsh, hp]
  refine ⟨?_, key, ?_, ?_, ?_⟩
  · intro s f e hsh
    have hlow : pyLowerL s.data = s.data := pyLowerL_fix_of_shape hsh
    have := key s f e (by rw [hlow]; exact hsh)
    rw [hlow] at this
    exact this
  · intro s f e hsh hne
    simp [validate_uuid_string, hne, hsh]
  · intro f e
    rfl
  · intro s f e hblank
    simp [validate_uuid_string, hblank]

/-- Claim C3, instantiated at concrete inputs. -/
theorem claim_C3_witness :
    validate_uuid_string (some "123e4567-e89b-12d3-a456-426614174000")
        "lead_id" "x" = (some "123e4567-e89b-12d3-a456-426614174000", none)
  ∧ validate_uuid_string (some "123E4567-E89B-12D3-A456-426614174000")
        "lead_id" "x" = (some "123e4567-e89b-12d3-a456-426614174000", none)
  ∧ validate_uuid_string (some "not-a-uuid") "lead_id" "x"
      = (none, some "lead_id must be a valid UUID string. Example: 'x'")
  ∧ validate_uuid_string none "lead_id" "x" = (none, none)
  ∧ validate_uuid_string (some "   ") "lead_id" "x" = (none, none) := by
  refine ⟨claim_C3.1 "123e4567-e89b-12d3-a456-426614174000" "lead_id" "x"
      (by decide), ?_, ?_, claim_C3.2.2.2.1 "lead_id" "x",
    claim_C3.2.2.2.2 "   " "lead_id" "x" (by decide)⟩
  · have h := claim_C3.2.1 "123E4567-E89B-12D3-A456-426614174000" "lead_id" "x"
      (by decide)
    rw [h]
    decide
  · have h := claim_C3.2.2.1 "not-a-uuid" "lead_id" "x" (by decide) (by decide)
    rw [h]
    decide

/-- Claim C4: the duration validator pads `"1:00"`, `"01:00"` and
`"1:00:00"` to `"01:00:00"`, and constructing an `Activity` with
duration `"25:00:00"` fails validation. -/
theorem claim_C4 :
    Activity.validate_time_format "duration" (some "1:00")
      = .ok (some "01:00:00")
  ∧ Activity.validate_time_format "duration" (some "01:00")
      = .ok (some "01:00:00")
  ∧ Activity.validate_time_format "duration" (some "1:00:00")
      = .ok (some "01:00:00")
  ∧ mkActivity "Call" "call" none none (some "25:00:00") none none none
      none none none none none none none none none none
      = .error "Invalid duration format: 25:00:00. Must be in HH:MM:SS format" := by
  refine ⟨by rfl, by rfl, by rfl, by rfl⟩

theorem optTruthyStr_some_ne {r : String} (h : r ≠ "") :
    optTruthyStr (some r) = true := by
  rcases hb : r.isEmpty with _ | _
  · simp [optTruthyStr, hb]
  · exact absurd ((String.isEmpty_iff r).mp hb) h

/-- Inversion of `mkDeal`: a successful construction used the normalized
status, kept `lost_reason` verbatim, and passed the cross-field
validator. -/
theorem mkDeal_ok {t : String} {v : Option Rat} {c : String}
    {pid oid : Option Int} {st : String} {owid sgid plid : Option Int}
    {ecd : Option (Nat × Nat × Nat)} {vis prob : Option Int}
    {lr : Option String} {i : Option Int} {d : Deal}
    (h : mkDeal t v c pid oid st owid sgid plid ecd vis prob lr i = .ok d) :
    Deal.validate_status st = .ok d.status ∧ d.lost_reason = lr ∧
      Deal.validate_deal d = .ok d := by
  unfold mkDeal at h
  simp only [bind, Except.bind] at h
  cases h1 : Deal.validate_title t with
  | error e => rw [h1] at h; exact absurd h (by simp)
  | ok x1 =>
  rw [h1] at h
  cases h2 : Deal.validate_non_negative_value v with
  | error e => rw [h2] at h; exact absurd h (by simp)
  | ok x2 =>
  rw [h2] at h
  cases h3 : Deal.validate_currency c with
  | error e => rw [h3] at h; exact absurd h (by simp)
  | ok x3 =>
  rw [h3] at h
  cases h4 : Deal.validate_positive_id "person_id" pid with
  | error e => rw [h4] at h; exact absurd h (by simp)
  | ok x4 =>
  rw [h4] at h
  cases h5 : Deal.validate_positive_id "org_id" oid with
  | error e => rw [h5] at h; exact absurd h (by simp)
  | ok x5 =>
  rw [h5] at h
  cases h6 : Deal.validate_status st with
  | error e => rw [h6] at h; exact absurd h (by simp)
  | ok x6 =>
  rw [h6] at h
  cases h7 : Deal.validate_positive_id "owner_id" owid with
  | error e => rw [h7] at h; exact absurd h (by simp)
  | ok x7 =>
  rw [h7] at h
  cases h8 : Deal.validate_positive_id "stage_id" sgid with
  | error e => rw [h8] at h; exact absurd h (by simp)
  | ok x8 =>
  rw [h8] at h
  cases h9 : Deal.validate_positive_id "pipeline_id" plid with
  | error e => rw [h9] at h; exact absurd h (by simp)
  | ok x9 =>
  rw [h9] at h
  cases h10 : Deal.validate_positive_id "visible_to" vis with
  | error e => rw [h10] at h; exact absurd h (by simp)
  | ok x10 =>
  rw [h10] at h
  cases h11 : Deal.validate_probability_range prob with
  | error e => rw [h11] at h; exact absurd h (by simp)
  | ok x11 =>
  rw [h11] at h
  cases h12 : Deal.validate_positive_id "id" i with
  | error e => rw [h12] at h; exact absurd h (by simp)
  | ok x12 =>
  rw [h12] at h
  have hd : Deal.validate_deal ⟨x1, x2, x3, x4, x5, x6, x7, x8, x9, ecd,
      x10, x11, lr, x12⟩ = .ok d := h
  unfold Deal.validate_deal at hd
  split at hd
  · exact absurd hd (by simp)
  · have hdd : (⟨x1, x2, x3, x4, x5, x6, x7, x8, x9, ecd, x10, x11, lr,
        x12⟩ : Deal) = d := by injection hd
    subst hdd
    refine ⟨rfl, rfl, ?_⟩
    unfold Deal.validate_deal
    rw [if_neg (by assumption)]

/-- Claim C5: `DealProduct` construction fails for `one-time` with
cycles present, for `weekly` with cycles absent, and for out-of-range
cycles under a non-`one-time` frequency; cycles = 208 succeeds. -/
theorem claim_C5 :
    (∀ p : DealProduct, p.billing_frequency = "one-time" →
        p.billing_frequency_cycles ≠ none →
        ∃ msg, DealProduct.validate_deal_product p = .error msg)
  ∧ (∀ p : DealProduct, p.billing_frequency = "weekly" →
        p.billing_frequency_cycles = none →
        ∃ msg, DealProduct.validate_deal_product p = .error msg)
  ∧ (∀ (p : DealProduct) (c : Int), p.billing_frequency ≠ "one-time" →
        p.billing_frequency_cycles = some c → (c ≤ 0 ∨ 208 < c) →
        ∃ msg, DealProduct.validate_deal_product p = .error msg)
  ∧ mkDealProduct 1 1 1 0 0 none "USD" "percentage" "inclusive" true none
      "weekly" (some 208) none none none
      = .ok ⟨1, 1, 1, 0, 0, none, "USD", "percentage", "inclusive", true,
          none, "weekly", some 208, none, none, none⟩ := by
  refine ⟨?_, ?_, ?_, by rfl⟩
  · intro p hf hc
    unfold DealProduct.validate_deal_product
    by_cases h1 : p.item_price ≤ 0
    · rw [if_pos h1]; exact ⟨_, rfl⟩
    rw [if_neg h1]
    by_cases h2 : p.quantity ≤ 0
    · rw [if_pos h2]; exact ⟨_, rfl⟩
    rw [if_neg h2]
    by_cases h3 : ¬ (p.discount_type = "percentage" ∨ p.discount_type = "amount")
    · rw [if_pos h3]; exact ⟨_, rfl⟩
    rw [if_neg h3]
    by_cases h4 : ¬ (p.tax_method = "inclusive" ∨ p.tax_method = "exclusive"
        ∨ p.tax_method = "none")
    · rw [if_pos h4]; exact ⟨_, rfl⟩
    rw [if_neg h4]
    by_cases h5 : ¬ (p.billing_frequency ∈ ["one-time", "annually",
        "semi-annually", "quarterly", "monthly", "weekly"])
    · rw [if_pos h5]; exact ⟨_, rfl⟩
    rw [if_neg h5, if_pos ⟨hf, hc⟩]
    exact ⟨_, rfl⟩
  · intro p hf hc
    unfold DealProduct.validate_deal_product
    by_cases h1 : p.item_price ≤ 0
    · rw [if_pos h1]; exact ⟨_, rfl⟩
    rw [if_neg h1]
    by_cases h2 : p.quantity ≤ 0
    · rw [if_pos h2]; exact ⟨_, rfl⟩
    rw [if_neg h2]
    by_cases h3 : ¬ (p.discount_type = "percentage" ∨ p.discount_type = "amount")
    · rw [if_pos h3]; exact ⟨_, rfl⟩
    rw [if_neg h3]
    by_cases h4 : ¬ (p.tax_method = "inclusive" ∨ p.tax_method = "exclusive"
        ∨ p.tax_method = "none")
    · rw [if_pos h4]; exact ⟨_, rfl⟩
    rw [if_neg h4]
    by_cases h5 : ¬ (p.billing_frequency ∈ ["one-time", "annually",
        "semi-annually", "quarterly", "monthly", "weekly"])
    · rw [if_pos h5]; exact ⟨_, rfl⟩
    rw [if_neg h5, if_neg (fun hx => by rw [hf] at hx; simp at hx),
      if_pos ⟨hf, hc⟩]
    exact ⟨_, rfl⟩
  · intro p c hf hc hbad
    unfold DealProduct.validate_deal_product
    rw [hc]
    by_cases h1 : p.item_price ≤ 0
    · rw [if_pos h1]; exact ⟨_, rfl⟩
    rw [if_neg h1]
    by_cases h2 : p.quantity ≤ 0
    · rw [if_pos h2]; exact ⟨_, rfl⟩
    rw [if_neg h2]
    by_cases h3 : ¬ (p.discount_type = "percentage" ∨ p.discount_type = "amount")
    · rw [if_pos h3]; exact ⟨_, rfl⟩
    rw [if_neg h3]
    by_cases h4 : ¬ (p.tax_method = "inclusive" ∨ p.tax_method = "exclusive"
        ∨ p.tax_method = "none")
    · rw [if_pos h4]; exact ⟨_, rfl⟩
    rw [if_neg h4]
    by_cases h5 : ¬ (p.billing_frequency ∈ ["one-time", "annually",
        "semi-annually", "quarterly", "monthly", "weekly"])
    · rw [if_pos h5]; exact ⟨_, rfl⟩
    rw [if_neg h5, if_neg (fun hx => hf hx.1),
      if_neg (fun hx => by simp at hx)]
    show ∃ msg, (if c ≤ 0 ∨ 208 < c then
        Except.error "Billing frequency cycles must be a positive integer less than or equal to 208"
      else Except.ok p) = Except.error msg
    rw [if_pos hbad]
    exact ⟨_, rfl⟩

/-- Claim C5, instantiated at concrete inputs. -/
theorem claim_C5_witness :
    (∃ msg, DealProduct.validate_deal_product
      ⟨1, 1, 1, 0, 0, none, "USD", "percentage", "inclusive", true, none,
        "one-time", some 5, none, none, none⟩ = .error msg)
  ∧ (∃ msg, DealProduct.validate_deal_product
      ⟨1, 1, 1, 0, 0, none, "USD", "percentage", "inclusive", true, none,
        "weekly", none, none, none, none⟩ = .error msg)
  ∧ (∃ msg, DealProduct.validate_deal_product
      ⟨1, 1, 1, 0, 0, none, "USD", "percentage", "inclusive", true, none,
        "monthly", some 209, none, none, none⟩ = .error msg) := by
  refine ⟨claim_C5.1 _ rfl (by simp), claim_C5.2.1 _ rfl rfl,
    claim_C5.2.2.1 _ 209 (by simp) rfl (by simp)⟩

/-- Claim C6, counterexample: a `Deal` whose status is not `"lost"` but
whose `lost_reason` is the non-null empty string validates
successfully. -/
theorem claim_C6_counterexample :
    mkDeal "Sample deal" none "USD" none none "open" none none none none
      none none (some "") none
      = .ok ⟨"Sample deal", none, "USD", none, none, "open", none, none,
          none, none, none, none, some "", none⟩
  ∧ "open" ≠ "lost" ∧ (some "" : Option String) ≠ none := by
  exact ⟨by rfl, by simp, by simp⟩

/-- Claim C6, amended: with a non-null, non-empty `lost_reason`, any
construction whose status does not normalize to `"lost"` fails; with
status `"lost"` and a lost reason set, construction succeeds. -/
theorem claim_C6_amended :
    (∀ (t : String) (v : Option Rat) (c : String) (pid oid : Option Int)
        (st : String) (owid sgid plid : Option Int)
        (ecd : Option (Nat × Nat × Nat)) (vis prob : Option Int)
        (r : String) (i : Option Int),
      (∀ st', Deal.validate_status st = .ok st' → st' ≠ "lost") → r ≠ "" →
      ∃ msg, mkDeal t v c pid oid st owid sgid plid ecd vis prob (some r) i
        = .error msg)
  ∧ mkDeal "Old printer" none "USD" none none "lost" none none none none
      none none (some "Too expensive") none
      = .ok ⟨"Old printer", none, "USD", none, none, "lost", none, none,
          none, none, none, none, some "Too expensive", none⟩ := by
  refine ⟨?_, by rfl⟩
  intro t v c pid oid st owid sgid plid ecd vis prob r i hst hr
  cases hres : mkDeal t v c pid oid st owid sgid plid ecd vis prob (some r) i with
  | error msg => exact ⟨msg, rfl⟩
  | ok d =>
    exfalso
    obtain ⟨hs, hlr, hvd⟩ := mkDeal_ok hres
    have hdn : d.status ≠ "lost" := hst d.status hs
    unfold Deal.validate_deal at hvd
    rw [if_pos ⟨hdn, by rw [hlr]; exact optTruthyStr_some_ne hr⟩] at hvd
    exact absurd hvd (by simp)

/-- Claim C6 (amended), instantiated at concrete inputs. -/
theorem claim_C6_amended_witness :
    ∃ msg, mkDeal "Big sale" none "USD" none none "open" none none none
      none none none (some "changed mind") none = .error msg := by
  refine claim_C6_amended.1 "Big sale" none "USD" none none "open" none
    none none none none none "changed mind" none ?_ (by simp)
  intro st' h
  have h0 : Deal.validate_status "open" = (.ok "open" : Except String String) := rfl
  rw [h0] at h
  injection h with h
  rw [← h]
  simp

/-- Claim C10: the cross-field `lost_reason` check passes whenever
`lost_reason` is the empty string, whatever the status; in particular a
non-lost deal with `lost_reason=""` constructs successfully. -/
theorem claim_C10 :
    (∀ d : Deal, d.lost_reason = some "" → Deal.validate_deal d = .ok d)
  ∧ mkDeal "Quarterly upsell" none "EUR" none none "open" none none none
      none none none (some "") none
      = .ok ⟨"Quarterly upsell", none, "EUR", none, none, "open", none,
          none, none, none, none, none, some "", none⟩ := by
  refine ⟨?_, by rfl⟩
  intro d hl
  unfold Deal.validate_deal
  rw [hl]
  rw [if_neg fun hcond => absurd hcond.2 (by decide)]

/-- Claim C10, instantiated at a concrete deal. -/
theorem claim_C10_witness :
    Deal.validate_deal ⟨"W", none, "USD", none, none, "won", none, none,
        none, none, none, none, some "", none⟩
      = .ok ⟨"W", none, "USD", none, none, "won", none, none, none, none,
        none, none, some "", none⟩ :=
  claim_C10.1 _ rfl

theorem setKey_mem_self (kvs : List (String × PyValue)) (k : String)
    (v : PyValue) : (k, v) ∈ setKey kvs k v := by
  unfold setKey
  split
  · rename_i hany
    obtain ⟨kv₀, hmem, hk⟩ := List.any_eq_true.mp hany
    exact List.mem_map.mpr ⟨kv₀, hmem, by rw [if_pos hk]⟩
  · exact List.mem_append.mpr (Or.inr (by simp))

theorem setKey_mem_cases {kvs : List (String × PyValue)} {k : String}
    {v : PyValue} {kv : String × PyValue} (h : kv ∈ setKey kvs k v) :
    kv = (k, v) ∨ (kv ∈ kvs ∧ (kv.1 == k) = false) := by
  unfold setKey at h
  split at h
  · obtain ⟨y, hy, hfy⟩ := List.mem_map.mp h
    rcases hc : (y.1 == k) with _ | _
    · rw [if_neg (by simp [hc])] at hfy
      right
      rw [← hfy]
      exact ⟨hy, hc⟩
    · rw [if_pos hc] at hfy
      left
      exact hfy.symm
  · rename_i hany
    rcases List.mem_append.mp h with hmem | hmem
    · right
      refine ⟨hmem, ?_⟩
      rcases hc : (kv.1 == k) with _ | _
      · rfl
      · exact absurd (List.any_eq_true.mpr ⟨kv, hmem, hc⟩) hany
    · left
      simpa using hmem

theorem setKey_mem_preserve {kvs : List (String × PyValue)} {k : String}
    {v : PyValue} {kv : String × PyValue} (h : kv ∈ kvs)
    (hne : (kv.1 == k) = false) : kv ∈ setKey kvs k v := by
  unfold setKey
  split
  · exact List.mem_map.mpr ⟨kv, h, by rw [if_neg (by simp [hne])]⟩
  · exact List.mem_append.mpr (Or.inl h)

/-- Claim C9: `to_api_dict` never contains a `None` value nor the `id`
key; the `Deal` date is serialized to its ISO string; `Person`
emails/phones appear as lists of plain dictionaries. -/
theorem claim_C9 :
    (∀ (a : Activity) (kv : String × PyValue), kv ∈ a.to_api_dict →
        kv.2.isNull = false ∧ kv.1 ≠ "id")
  ∧ (∀ (d : Deal) (kv : String × PyValue), kv ∈ d.to_api_dict →
        kv.2.isNull = false ∧ kv.1 ≠ "id" ∧
        (kv.1 = "expected_close_date" → ∃ y m dd,
          d.expected_close_date = some (y, m, dd) ∧
          kv.2 = PyValue.str (isoFormat y m dd)))
  ∧ (∀ (p : Person) (kv : String × PyValue), kv ∈ p.to_api_dict →
        kv.2.isNull = false ∧ kv.1 ≠ "id")
  ∧ (∀ p : Person,
        ("emails", PyValue.list (p.emails.map Email.to_dict)) ∈ p.to_api_dict
      ∧ ("phones", PyValue.list (p.phones.map Phone.to_dict)) ∈ p.to_api_dict) := by
  have hfilter : ∀ (kvs : List (String × PyValue)) (kv : String × PyValue),
      kv ∈ kvs.filter (fun kv => !kv.2.isNull && kv.1 != "id") →
      kv.2.isNull = false ∧ kv.1 ≠ "id" := by
    intro kvs kv h
    have h' := (List.mem_filter.mp h).2
    simp only [Bool.and_eq_true, Bool.not_eq_true', bne_iff_ne, ne_eq] at h'
    exact ⟨h'.1, h'.2⟩
  refine ⟨?_, ?_, ?_, ?_⟩
  · intro a kv h
    exact hfilter _ _ h
  · intro d kv h
    unfold Deal.to_api_dict at h
    rcases hecd : d.expected_close_date with _ | ⟨⟨y, m, dd⟩⟩
    · rw [hecd] at h
      refine ⟨(hfilter _ _ h).1, (hfilter _ _ h).2, ?_⟩
      intro hkey
      exfalso
      have hmem := (List.mem_filter.mp h).1
      have hnull := (hfilter _ _ h).1
      simp only [Deal.model_dump, List.mem_cons, List.not_mem_nil, or_false] at hmem
      rcases hmem with rfl | rfl | rfl | rfl | rfl | rfl | rfl | rfl | rfl
        | rfl | rfl | rfl | rfl | rfl <;>
        simp_all [PyValue.isNull, PyValue.ofOptDate]
    · rw [hecd] at h
      rcases setKey_mem_cases h with rfl | ⟨hmem, hne⟩
      · refine ⟨by rfl, by simp, ?_⟩
        intro _
        exact ⟨y, m, dd, rfl, rfl⟩
      · refine ⟨(hfilter _ _ hmem).1, (hfilter _ _ hmem).2, ?_⟩
        intro hkey
        rw [hkey] at hne
        simp at hne
  · intro p kv h
    simp only [Person.to_api_dict] at h
    by_cases hph : p.phones ≠ []
    · rw [if_pos hph] at h
      rcases setKey_mem_cases h with rfl | ⟨h1, _⟩
      · exact ⟨by rfl, by simp⟩
      · by_cases hem : p.emails ≠ []
        · rw [if_pos hem] at h1
          rcases setKey_mem_cases h1 with rfl | ⟨h2, _⟩
          · exact ⟨by rfl, by simp⟩
          · exact hfilter _ _ h2
        · rw [if_neg hem] at h1
          exact hfilter _ _ h1
    · rw [if_neg hph] at h
      by_cases hem : p.emails ≠ []
      · rw [if_pos hem] at h
        rcases setKey_mem_cases h with rfl | ⟨h2, _⟩
        · exact ⟨by rfl, by simp⟩
        · exact hfilter _ _ h2
      · rw [if_neg hem] at h
        exact hfilter _ _ h
  · intro p
    have hbase : ∀ (k : String) (v : PyValue), (k, v) ∈ p.model_dump →
        v.isNull = false → k ≠ "id" →
        (k, v) ∈ p.model_dump.filter (fun kv => !kv.2.isNull && kv.1 != "id") := by
      intro k v hmem hnull hid
      refine List.mem_filter.mpr ⟨hmem, ?_⟩
      simp [hnull, bne_iff_ne, hid]
    have hem0 : ("emails", PyValue.list (p.emails.map Email.to_dict))
        ∈ p.model_dump.filter (fun kv => !kv.2.isNull && kv.1 != "id") :=
      hbase _ _ (by simp [Person.model_dump]) (by rfl) (by simp)
    have hph0 : ("phones", PyValue.list (p.phones.map Phone.to_dict))
        ∈ p.model_dump.filter (fun kv => !kv.2.isNull && kv.1 != "id") :=
      hbase _ _ (by simp [Person.model_dump]) (by rfl) (by simp)
    constructor
    · simp only [Person.to_api_dict]
      by_cases hem : p.emails ≠ []
      · rw [if_pos hem]
        by_cases hph : p.phones ≠ []
        · rw [if_pos hph]
          exact setKey_mem_preserve (setKey_mem_self _ _ _) (by simp)
        · rw [if_neg hph]
          exact setKey_mem_self _ _ _
      · rw [if_neg hem]
        by_cases hph : p.phones ≠ []
        · rw [if_pos hph]
          exact setKey_mem_preserve hem0 (by simp)
        · rw [if_neg hph]
          exact hem0
    · simp only [Person.to_api_dict]
      by_cases hem : p.emails ≠ []
      · rw [if_pos hem]
        by_cases hph : p.phones ≠ []
        · rw [if_pos hph]
          exact setKey_mem_self _ _ _
        · rw [if_neg hph]
          exact setKey_mem_preserve hph0 (by simp)
      · rw [if_neg hem]
        by_cases hph : p.phones ≠ []
        · rw [if_pos hph]
          exact setKey_mem_self _ _ _
        · rw [if_neg hph]
          exact hph0

/-- Claim C9, instantiated at concrete entities. -/
theorem claim_C9_witness :
    ((PyValue.str "Call").isNull = false ∧ ("subject" : String) ≠ "id")
  ∧ ((PyValue.str (isoFormat 2025 1 15)).isNull = false
      ∧ ("expected_close_date" : String) ≠ "id"
      ∧ (("expected_close_date" : String) = "expected_close_date" →
          ∃ y m dd, (some (2025, 1, 15) : Option (Nat × Nat × Nat)) = some (y, m, dd)
            ∧ PyValue.str (isoFormat 2025 1 15) = PyValue.str (isoFormat y m dd)))
  ∧ ((PyValue.str "Alice").isNull = false ∧ ("name" : String) ≠ "id")
  ∧ (("emails", PyValue.list ([(⟨"a@b.c", "work", true⟩ : Email)].map Email.to_dict))
        ∈ (⟨"Alice", none, none, [⟨"a@b.c", "work", true⟩], [], none, none⟩ : Person).to_api_dict
      ∧ ("phones", PyValue.list (([] : List Phone).map Phone.to_dict))
        ∈ (⟨"Alice", none, none, [⟨"a@b.c", "work", true⟩], [], none, none⟩ : Person).to_api_dict) := by
  refine ⟨?_, ?_, ?_, ?_⟩
  · exact claim_C9.1
      ⟨"Call", "call", none, none, none, none, none, none, none, none,
        none, none, none, none, none, none, none, none⟩
      ("subject", PyValue.str "Call")
      (by simp [Activity.to_api_dict, Activity.model_dump, PyValue.isNull,
        PyValue.ofOptStr, PyValue.ofOptInt, PyValue.ofOptBool])
  · exact claim_C9.2.1
      ⟨"T", none, "USD", none, none, "open", none, none, none,
        some (2025, 1, 15), none, none, none, none⟩
      ("expected_close_date", PyValue.str (isoFormat 2025 1 15))
      (by simp [Deal.to_api_dict, Deal.model_dump, setKey, PyValue.isNull,
        PyValue.ofOptStr, PyValue.ofOptInt, PyValue.ofOptFloat,
        PyValue.ofOptDate, List.filter, List.any])
  · exact claim_C9.2.2.1
      ⟨"Alice", none, none, [⟨"a@b.c", "work", true⟩], [], none, none⟩
      ("name", PyValue.str "Alice")
      (by simp [Person.to_api_dict, Person.model_dump, setKey, PyValue.isNull,
        PyValue.ofOptInt, Email.to_dict, List.filter, List.any])
  · exact claim_C9.2.2.2
      ⟨"Alice", none, none, [⟨"a@b.c", "work", true⟩], [], none, none⟩

/-- Claim C8: a tool wrapped for a disabled feature returns the fixed
refusal message, independent of the underlying tool function; for an
enabled feature the wrapper returns exactly the underlying result. -/
theorem claim_C8 :
    (∀ (α β : Type) (r : FeatureRegistry) (fid : String) (f : α → β) (a : α),
        r.is_feature_enabled fid = false →
        wrapTool r fid f a = .refused ("This tool is not available because the '"
            ++ fid ++ "' feature is disabled. Please contact your administrator.")
        ∧ ∀ g : α → β, wrapTool r fid f a = wrapTool r fid g a)
  ∧ (∀ (α β : Type) (r : FeatureRegistry) (fid : String) (f : α → β) (a : α),
        r.is_feature_enabled fid = true →
        wrapTool r fid f a = .executed (f a)) := by
  constructor
  · intro α β r fid f a hdis
    constructor
    · simp [wrapTool, hdis]
    · intro g
      simp [wrapTool, hdis]
  · intro α β r fid f a hen
    simp [wrapTool, hen]

/-- Claim C8, instantiated at a concrete registry and tool. -/
theorem claim_C8_witness :
    wrapTool ⟨["deals"], []⟩ "deals" (fun n : Nat => n + 1) 0
      = .refused ("This tool is not available because the 'deals' feature "
          ++ "is disabled. Please contact your administrator.")
  ∧ wrapTool ⟨["deals"], []⟩ "deals" (fun n : Nat => n + 1) 0
      = wrapTool ⟨["deals"], []⟩ "deals" (fun n : Nat => n + 2) 0
  ∧ wrapTool ⟨["deals"], ["deals"]⟩ "deals" (fun n : Nat => n + 1) 0
      = .executed 1 := by
  refine ⟨?_, ?_, ?_⟩
  · have h := (claim_C8.1 Nat Nat ⟨["deals"], []⟩ "deals"
      (fun n : Nat => n + 1) 0 (by rfl)).1
    simpa using h
  · exact (claim_C8.1 Nat Nat ⟨["deals"], []⟩ "deals"
      (fun n : Nat => n + 1) 0 (by rfl)).2 (fun n : Nat => n + 2)
  · exact claim_C8.2 Nat Nat ⟨["deals"], ["deals"]⟩ "deals"
      (fun n : Nat => n + 1) 0 (by rfl)

/-- An early duration-check failure is a structured failure envelope. -/
theorem tool_duration_check_error {d : Option String} {resp : ToolResponse}
    (h : tool_duration_check d = .error resp) :
    resp.success = false ∧ resp.error ≠ none := by
  unfold tool_duration_check at h
  repeat' split at h
  all_goals first
    | (injection h; done)
    | (injection h with h
       rw [← h]
       exact ⟨rfl, by simp [format_tool_response]⟩)

/-- An early priority-check failure is a structured failure envelope. -/
theorem tool_priority_check_error {p : Option String} {resp : ToolResponse}
    (h : tool_priority_check p = .error resp) :
    resp.success = false ∧ resp.error ≠ none := by
  unfold tool_priority_check at h
  repeat' split at h
  all_goals first
    | (injection h; done)
    | (injection h with h
       rw [← h]
       exact ⟨rfl, by simp [format_tool_response]⟩)

/-- Claim C7: calling the activity-creation handler with an empty
subject returns the failure envelope without the remote client being
invoked; the remote call happens only when every conversion and
validation step succeeded; and every early return is a structured
failure. -/
theorem claim_C7 :
    (∀ (api : Except String PyValue) (type_ : String)
        (owner_id deal_id lead_id person_id org_id : Option String)
        (due_date due_time duration : Option String)
        (busy done : Option Bool)
        (note location public_description priority : Option String),
      create_activity_in_pipedrive api "" type_ owner_id deal_id lead_id
          person_id org_id due_date due_time duration busy done note
          location public_description priority
        = some (⟨false, none,
            some "The 'subject' field is required and cannot be empty."⟩, false))
  ∧ (∀ (api : Except String PyValue) (subject type_ : String)
        (owner_id deal_id lead_id person_id org_id : Option String)
        (due_date due_time duration : Option String)
        (busy done : Option Bool)
        (note location public_description priority : Option String)
        (r : ToolResponse),
      create_activity_in_pipedrive api subject type_ owner_id deal_id
          lead_id person_id org_id due_date due_time duration busy done
          note location public_description priority = some (r, true) →
      ∃ s t ow de pe og ld dd vd pi a,
        (sanitize_value (some subject)).map pyStrip = some s
      ∧ (sanitize_value (some type_)).map pyStrip = some t
      ∧ convert_id_string (sanitize_value owner_id) "owner_id" "123" = (ow, none)
      ∧ convert_id_string (sanitize_value deal_id) "deal_id" "123" = (de, none)
      ∧ convert_id_string (sanitize_value person_id) "person_id" "123" = (pe, none)
      ∧ convert_id_string (sanitize_value org_id) "org_id" "123" = (og, none)
      ∧ validate_uuid_string (sanitize_value lead_id) "lead_id"
          "123e4567-e89b-12d3-a456-426614174000" = (ld, none)
      ∧ validate_date_string (sanitize_value due_date) "due_date"
          "YYYY-MM-DD" "2025-01-15" = (dd, none)
      ∧ sanitize_value due_time = none
      ∧ tool_duration_check (sanitize_value duration) = .ok vd
      ∧ tool_priority_check priority = .ok pi
      ∧ mkActivity s t dd none vd ow de ld pe og none busy done
          (sanitize_value note) (sanitize_value location)
          (sanitize_value public_description) pi none = .ok a)
  ∧ (∀ (api : Except String PyValue) (subject type_ : String)
        (owner_id deal_id lead_id person_id org_id : Option String)
        (due_date due_time duration : Option String)
        (busy done : Option Bool)
        (note location public_description priority : Option String)
        (r : ToolResponse),
      create_activity_in_pipedrive api subject type_ owner_id deal_id
          lead_id person_id org_id due_date due_time duration busy done
          note location public_description priority = some (r, false) →
      r.success = false ∧ r.error ≠ none) := by
  refine ⟨?_, ?_, ?_⟩
  · intro api type_ owner_id deal_id lead_id person_id org_id due_date
      due_time duration busy done note location public_description priority
    rfl
  · intro api subject type_ owner_id deal_id lead_id person_id org_id
      due_date due_time duration busy done note location
      public_description priority r h
    simp only [create_activity_in_pipedrive] at h
    repeat' split at h
    all_goals first
      | (rename_i _ s hsub _ t htyp _ ow how _ de hde _ pe hpe _ og hog
           _ ld hld _ dd hdd _ hdt _ vd hdur _ pi hpri _ a hmk _ _
         exact ⟨s, t, ow, de, pe, og, ld, dd, vd, pi, a, hsub, htyp, how,
           hde, hpe, hog, hld, hdd, hdt, hdur, hpri, hmk⟩)
      | exact absurd h (by simp)
  · intro api subject type_ owner_id deal_id lead_id person_id org_id
      due_date due_time duration busy done note location
      public_description priority r h
    simp only [create_activity_in_pipedrive] at h
    repeat' split at h
    all_goals first
      | (simp only [Option.some.injEq, Prod.mk.injEq] at h
         obtain ⟨h1, -⟩ := h
         rw [← h1]
         first
           | (refine ⟨rfl, ?_⟩
              simp [format_tool_response])
           | (apply tool_duration_check_error
              assumption)
           | (apply tool_priority_check_error
              assumption))
      | exact absurd h (by simp)

/-- Claim C7, instantiated: an empty subject short-circuits before the
remote call, and a fully valid invocation that did reach the remote call
had every conversion succeed. -/
theorem claim_C7_witness :
    create_activity_in_pipedrive (.ok (PyValue.int 1)) "" "call" none none
        none none none none none none none none none none none none
      = some (⟨false, none,
          some "The 'subject' field is required and cannot be empty."⟩, false)
  ∧ (∃ s t ow de pe og ld dd vd pi a,
      (sanitize_value (some "Call with client")).map pyStrip = some s
    ∧ (sanitize_value (some "call")).map pyStrip = some t
    ∧ convert_id_string (sanitize_value (some "123")) "owner_id" "123" = (ow, none)
    ∧ convert_id_string (sanitize_value none) "deal_id" "123" = (de, none)
    ∧ convert_id_string (sanitize_value none) "person_id" "123" = (pe, none)
    ∧ convert_id_string (sanitize_value none) "org_id" "123" = (og, none)
    ∧ validate_uuid_string (sanitize_value none) "lead_id"
        "123e4567-e89b-12d3-a456-426614174000" = (ld, none)
    ∧ validate_date_string (sanitize_value (some "2025-01-15")) "due_date"
        "YYYY-MM-DD" "2025-01-15" = (dd, none)
    ∧ sanitize_value none = none
    ∧ tool_duration_check (sanitize_value none) = .ok vd
    ∧ tool_priority_check none = .ok pi
    ∧ mkActivity s t dd none vd ow de ld pe og none none none
        (sanitize_value none) (sanitize_value none) (sanitize_value none)
        pi none = .ok a) := by
  constructor
  · exact claim_C7.1 (.ok (PyValue.int 1)) "call" none none none none none
      none none none none none none none none none
  · exact claim_C7.2.1 (.ok (PyValue.int 1)) "Call with client" "call"
      (some "123") none none none none (some "2025-01-15") none none none
      none none none none none ⟨true, some (PyValue.int 1), none⟩ rfl
